import Mathlib

/-!
Verification of the device-tier-adaptive animation scheduler of a portfolio
front-end bundle.  The definitions below are shallow embeddings of the
JavaScript source: the capability detector (`Device`), the FPS throttle
(`createThrottledRAF`), the particle-field draw step (`NeuralNetwork.draw`),
node spawning (`NeuralNetwork.spawnNodes`), and the constructors of the
effect drivers (matrix rain, neural field, glitch text, and the ambient
particle IIFE of the unnamed bundled file).

JavaScript numbers are modelled as exact rationals (timestamps, memory
estimates) or reals (particle coordinates, where `Math.hypot`, i.e. a square
root, is involved).
-/

-- ==================== DEVICE CAPABILITY DETECTOR ====================
-- Source: src/js/3d-portfolio.js lines 4-14.

/-- Result record of the `Device` IIFE: the three tier flags plus the raw
inputs it caches. -/
structure DeviceFlags where
  isLow : Bool
  isMid : Bool
  isHigh : Bool
  mobile : Bool
  reduced : Bool
  cores : ℕ
  mem : ℚ
deriving DecidableEq

/-- JS `navigator.hardwareConcurrency || 2`: both an absent report and a
falsy 0 fall back to 2. -/
def coresDefault : Option ℕ → ℕ
  | none => 2
  | some c => if c = 0 then 2 else c

/-- JS `navigator.deviceMemory || 1` (GB): absent or falsy 0 falls back
to 1. -/
def memDefault : Option ℚ → ℚ
  | none => 1
  | some m => if m = 0 then 1 else m

/-- The `Device` IIFE, src/js/3d-portfolio.js lines 4-14:
`isLow = reduced || cores <= 2 || mem < 2 || (mobile && cores <= 4)`,
`isMid = !isLow && (cores <= 4 || mem < 4 || mobile)`,
`isHigh = !isLow && !isMid`, with `mobile = innerWidth < 768`. -/
def device (coresR : Option ℕ) (memR : Option ℚ) (innerWidth : ℕ)
    (reduced : Bool) : DeviceFlags :=
  let cores := coresDefault coresR
  let mem := memDefault memR
  let mobile := decide (innerWidth < 768)
  let isLow := reduced || decide (cores ≤ 2) || decide (mem < 2) ||
    (mobile && decide (cores ≤ 4))
  let isMid := !isLow && (decide (cores ≤ 4) || decide (mem < 4) || mobile)
  { isLow := isLow, isMid := isMid, isHigh := !isLow && !isMid,
    mobile := mobile, reduced := reduced, cores := cores, mem := mem }

/-- Discrete tier, for stating the classification rule of the specification. -/
inductive Tier
  | low
  | mid
  | high
deriving DecidableEq

/-- Spec-side defaulting of the core count: "default 2 if unavailable". -/
def specCores (r : Option ℕ) : ℕ := r.getD 2

/-- Spec-side defaulting of the memory estimate: "default 1 if
unavailable". -/
def specMem (r : Option ℚ) : ℚ := r.getD 1

/-- The classification rule exactly as the specification words it
(first match wins): Low if reduced-motion is requested, or cores ≤ 2, or
memory < 2GB, or (viewport width < 768px and cores ≤ 4); Mid if not Low
and (cores ≤ 4 or memory < 4GB or viewport width < 768px); High
otherwise. -/
def specTier (cores : ℕ) (mem : ℚ) (width : ℕ) (reduced : Bool) : Tier :=
  if reduced = true ∨ cores ≤ 2 ∨ mem < 2 ∨ (width < 768 ∧ cores ≤ 4) then
    Tier.low
  else if cores ≤ 4 ∨ mem < 4 ∨ width < 768 then
    Tier.mid
  else
    Tier.high

-- ==================== FPS THROTTLE HELPER ====================
-- Source: src/js/3d-portfolio.js lines 17-25 (`createThrottledRAF`).
-- `let last = 0; loop(now) { if (now - last >= interval) { last = now; fn() }
--  requestAnimationFrame(loop) }`.  We model the sequence of native rAF
-- timestamps as a list of rationals and record, per tick, whether the
-- callback fired.

/-- `interval = 1000 / targetFPS`. -/
def throttleInterval (targetFPS : ℚ) : ℚ := 1000 / targetFPS

/-- Per-tick firing decision of the throttle loop: given the baseline
`last` and the tick timestamps, return one Bool per tick saying whether
the callback was invoked on that tick. -/
def fireFlags (interval : ℚ) : ℚ → List ℚ → List Bool
  | _, [] => []
  | last, now :: ts =>
    if interval ≤ now - last then true :: fireFlags interval now ts
    else false :: fireFlags interval last ts

/-- The timestamps of the ticks on which the callback was invoked. -/
def fireTimes (interval : ℚ) : ℚ → List ℚ → List ℚ
  | _, [] => []
  | last, now :: ts =>
    if interval ≤ now - last then now :: fireTimes interval now ts
    else fireTimes interval last ts

/-- The value of `last` after processing all ticks. -/
def finalBaseline (interval : ℚ) : ℚ → List ℚ → ℚ
  | last, [] => last
  | last, now :: ts =>
    if interval ≤ now - last then finalBaseline interval now ts
    else finalBaseline interval last ts

-- ==================== NEURAL NETWORK PARTICLE FIELD ====================
-- Source: src/js/3d-portfolio.js lines 104-120 (spawnNodes) and 146-173
-- (the per-node part of draw).  Coordinates and velocities are modelled as
-- real numbers; `Math.hypot` is the Euclidean norm.

/-- One particle-field node (line 111-119).  The cosmetic colour index is
omitted: no claim and no drawn pixel value depends on it. -/
structure Node where
  x : ℝ
  y : ℝ
  vx : ℝ
  vy : ℝ
  pulse : ℝ
  r : ℝ

noncomputable section

/-- `Math.hypot a b`. -/
def hypot (a b : ℝ) : ℝ := Real.sqrt (a * a + b * b)

/-- Distance from the pointer `(mx, my)` to a node, `Math.hypot(mdx, mdy)`
with `mdx = n.x - mouse.x`, `mdy = n.y - mouse.y` (lines 158-160). -/
def nodeDist (mx my : ℝ) (n : Node) : ℝ := hypot (n.x - mx) (n.y - my)

/-- Lines 153-155: `n.x += n.vx; n.y += n.vy; n.pulse += 0.018`. -/
def moveNode (n : Node) : Node :=
  { n with x := n.x + n.vx, y := n.y + n.vy, pulse := n.pulse + 0.018 }

/-- Lines 157-165, the mouse-repulsion block: with `md` the pointer
distance, when `md < mouseInf && md > 0` add
`(mdx / md) * force` to `vx` and `(mdy / md) * force` to `vy`, where
`force = ((mouseInf - md) / mouseInf) * 0.7`. -/
def mouseRepulse (mouseInf mx my : ℝ) (n : Node) : Node :=
  if nodeDist mx my n < mouseInf ∧ 0 < nodeDist mx my n then
    { n with
      vx := n.vx + ((n.x - mx) / nodeDist mx my n) *
        (((mouseInf - nodeDist mx my n) / mouseInf) * 0.7),
      vy := n.vy + ((n.y - my) / nodeDist mx my n) *
        (((mouseInf - nodeDist mx my n) / mouseInf) * 0.7) }
  else n

/-- Lines 167-168: `speed = Math.hypot(vx, vy); if (speed > 1.4)
{ vx *= 1.4/speed; vy *= 1.4/speed }`. -/
def clampSpeed (n : Node) : Node :=
  if 1.4 < hypot n.vx n.vy then
    { n with vx := n.vx * (1.4 / hypot n.vx n.vy),
             vy := n.vy * (1.4 / hypot n.vx n.vy) }
  else n

/-- Lines 170-173: reflect the velocity component when the coordinate is
out of bounds, then clamp the coordinate into `[0, w] × [0, h]`. -/
def reflectBounds (w h : ℝ) (n : Node) : Node :=
  { n with
    vx := if n.x < 0 ∨ w < n.x then n.vx * (-1) else n.vx,
    vy := if n.y < 0 ∨ h < n.y then n.vy * (-1) else n.vy,
    x := max 0 (min w n.x),
    y := max 0 (min h n.y) }

/-- The per-node state update of one draw tick (lines 152-173), in source
order: position/pulse advance, mouse repulsion, speed clamp, boundary
reflection and position clamp. -/
def drawStep (mouseInf w h mx my : ℝ) (n : Node) : Node :=
  reflectBounds w h (clampSpeed (mouseRepulse mouseInf mx my (moveNode n)))

/-- Lines 104-108 of spawnNodes: `area = innerWidth * innerHeight`,
`density = isMid ? 28000 : 12000`,
`count = Math.min(Math.floor(area / density), isMid ? 40 : 90)`.
The constructor runs only when the tier is not Low, so `isMid = false`
means tier High. -/
def spawnCount (isMid : Bool) (width height : ℕ) : ℕ :=
  min (width * height / (if isMid then 28000 else 12000))
    (if isMid then 40 else 90)

/-- Lines 111-119: `Array.from({length: count}, () => ({...}))`.  The
randomised per-node initialisation is abstracted as a stream `rng` of
nodes; only the element count is deterministic. -/
def spawnNodes (isMid : Bool) (width height : ℕ) (rng : ℕ → Node) :
    List Node :=
  (List.range (spawnCount isMid width height)).map rng

end

-- ==================== EFFECT-DRIVER CONSTRUCTION MODEL ====================
-- The constructors of MatrixRain (lines 28-49), NeuralNetwork (75-97) and
-- GlitchText (223-236) of src/js/3d-portfolio.js, and the top of the
-- ambient-particle IIFE of the unnamed bundled file (src/unnamed/part_001).
-- The DOM is abstracted to the presence of each anchor; a canvas records
-- whether a display style of none has been applied to it.

/-- A canvas element; `hidden` is true once a display style of none has
been set on it (the JS `c.style.display` assignment). -/
structure Canvas where
  hidden : Bool
deriving DecidableEq

/-- The DOM anchors the modelled drivers look up. -/
structure Dom where
  matrixCanvas : Option Canvas
  neuralCanvas : Option Canvas
  glitchTarget : Bool
  particleCanvas : Option Canvas
  cursorGlow : Bool
  heroRole : Bool
  navToggle : Bool
deriving DecidableEq

/-- A registered repeating schedule: a throttled rAF loop at a target FPS,
a raw rAF loop, or a `setInterval` period in milliseconds. -/
inductive Sched
  | raf (fps : ℕ)
  | rawRaf
  | intervalMs (ms : ℕ)
deriving DecidableEq

/-- Observable outcome of constructing one driver: the schedules it
registered, whether it created per-frame state, and the DOM it leaves
behind. -/
structure DriverResult where
  schedules : List Sched
  hasState : Bool
  dom : Dom
deriving DecidableEq

/-- MatrixRain constructor (lines 28-49): return immediately on Low tier;
return if `matrix-canvas` is absent; otherwise build the drops state and
register a throttled rAF at 24 fps (Mid) or 30 fps. -/
def matrixRainInit (dev : DeviceFlags) (dom : Dom) : DriverResult :=
  if dev.isLow = true then ⟨[], false, dom⟩
  else
    match dom.matrixCanvas with
    | none => ⟨[], false, dom⟩
    | some _ => ⟨[Sched.raf (if dev.isMid = true then 24 else 30)], true, dom⟩

/-- NeuralNetwork constructor (lines 75-97): on Low tier, hide
`neural-canvas` if present and return; return if the canvas is absent;
otherwise build nodes and register a throttled rAF at 30 fps (Mid) or
60 fps. -/
def neuralInit (dev : DeviceFlags) (dom : Dom) : DriverResult :=
  if dev.isLow = true then
    match dom.neuralCanvas with
    | none => ⟨[], false, dom⟩
    | some _ => ⟨[], false, { dom with neuralCanvas := some ⟨true⟩ }⟩
  else
    match dom.neuralCanvas with
    | none => ⟨[], false, dom⟩
    | some _ => ⟨[Sched.raf (if dev.isMid = true then 30 else 60)], true, dom⟩

/-- GlitchText constructor (lines 223-236): return if reduced-motion is
requested; return if `.glitch-name` is absent; otherwise register a
`setInterval` of 8000/6000/4000 ms by tier. -/
def glitchInit (dev : DeviceFlags) (dom : Dom) : DriverResult :=
  if dev.reduced = true then ⟨[], false, dom⟩
  else if dom.glitchTarget then
    ⟨[Sched.intervalMs
        (if dev.isLow = true then 8000
         else if dev.isMid = true then 6000 else 4000)], true, dom⟩
  else ⟨[], false, dom⟩

/-- A thrown JavaScript exception. -/
inductive JSError
  | typeError
deriving DecidableEq

/-- Observable outcome of the ambient-particle IIFE when it completes. -/
structure IifeResult where
  particlesActive : Bool
  cursorGlowActive : Bool
  typingActive : Bool
  navbarActive : Bool
  schedules : List Sched
deriving DecidableEq

/-- Top-level body of the ambient-particle IIFE (src/unnamed/part_001):
the canvas lookup by id `particleCanvas` is passed unchecked to
`canvas.getContext`, so a
missing `particleCanvas` makes `getContext` throw a TypeError and aborts
the whole IIFE.  Later, `typeRole()` dereferences the unchecked
`heroRole` lookup and `navToggle.addEventListener` dereferences the
unchecked `navToggle` lookup, both synchronously; the `cursorGlow` lookup
is only used under a null guard. -/
def particleIifeInit (dom : Dom) : Except JSError IifeResult :=
  match dom.particleCanvas with
  | none => Except.error JSError.typeError
  | some _ =>
    match dom.heroRole with
    | false => Except.error JSError.typeError
    | true =>
      match dom.navToggle with
      | false => Except.error JSError.typeError
      | true =>
        Except.ok ⟨true, dom.cursorGlow, true, true,
          [Sched.rawRaf, Sched.rawRaf]⟩

/-- Observable outcome of constructing the Navbar driver of
src/js/3d-portfolio.js (lines 440-483): the cached result of the navbar
lookup and which listeners `init` registered.  The constructor has no
anchor guard and no early return. -/
structure NavbarResult where
  navFound : Bool
  scrollListenerRegistered : Bool
  toggleClickRegistered : Bool
  docClickRegistered : Bool
deriving DecidableEq

/-- Navbar constructor and `init` (lines 440-483): the navbar lookup is
cached unchecked, the scroll listener (lines 452-461) and the document
click listener (line 475) are registered unconditionally, and the toggle
click listener sits behind the optional chain on the toggle lookup
(line 463).  Nothing throws at construction time, missing anchors
included. -/
def navbarInit (navPresent navTogglePresent : Bool) : NavbarResult :=
  ⟨navPresent, true, navTogglePresent, true⟩

/-- Body of the rAF callback of the Navbar scroll listener (lines
454-458): `this.nav.classList.toggle` with the scrolled flag
`window.scrollY > 50` dereferences the unchecked navbar lookup, a
TypeError when the navbar element is missing. -/
def navbarFrame (navPresent : Bool) (scrollY : ℚ) : Except JSError Bool :=
  if navPresent then Except.ok (decide (50 < scrollY))
  else Except.error JSError.typeError

-- ==================== THEOREMS ====================

-- Helper lemmas for the capability detector.  The flag computations are
-- propositional tautologies in their decidable atoms, so we first prove
-- them over arbitrary Booleans and then instantiate the atoms.

theorem bool_low_shape : ∀ rB c2 m2 mob c4 : Bool,
    (rB || c2 || m2 || (mob && c4)) = true ↔
      (rB = true ∨ c2 = true ∨ m2 = true ∨ (mob = true ∧ c4 = true)) := by
  decide

theorem bool_mid_shape : ∀ rB c2 m2 mob c4 m4 : Bool,
    (!(rB || c2 || m2 || (mob && c4)) && (c4 || m4 || mob)) = true ↔
      (¬(rB = true ∨ c2 = true ∨ m2 = true ∨ (mob = true ∧ c4 = true)) ∧
        (c4 = true ∨ m4 = true ∨ mob = true)) := by
  decide

theorem bool_high_shape : ∀ rB c2 m2 mob c4 m4 : Bool,
    (!(rB || c2 || m2 || (mob && c4)) &&
        !(!(rB || c2 || m2 || (mob && c4)) && (c4 || m4 || mob))) = true ↔
      (¬(rB = true ∨ c2 = true ∨ m2 = true ∨ (mob = true ∧ c4 = true)) ∧
        ¬(c4 = true ∨ m4 = true ∨ mob = true)) := by
  decide

theorem device_isLow_iff (cR : Option ℕ) (mR : Option ℚ) (w : ℕ) (r : Bool) :
    (device cR mR w r).isLow = true ↔
      (r = true ∨ coresDefault cR ≤ 2 ∨ memDefault mR < 2 ∨
        (w < 768 ∧ coresDefault cR ≤ 4)) := by
  have h := bool_low_shape r (decide (coresDefault cR ≤ 2))
    (decide (memDefault mR < 2)) (decide (w < 768))
    (decide (coresDefault cR ≤ 4))
  simp only [decide_eq_true_eq] at h
  exact h

theorem device_isMid_iff (cR : Option ℕ) (mR : Option ℚ) (w : ℕ) (r : Bool) :
    (device cR mR w r).isMid = true ↔
      (¬(r = true ∨ coresDefault cR ≤ 2 ∨ memDefault mR < 2 ∨
          (w < 768 ∧ coresDefault cR ≤ 4)) ∧
        (coresDefault cR ≤ 4 ∨ memDefault mR < 4 ∨ w < 768)) := by
  have h := bool_mid_shape r (decide (coresDefault cR ≤ 2))
    (decide (memDefault mR < 2)) (decide (w < 768))
    (decide (coresDefault cR ≤ 4)) (decide (memDefault mR < 4))
  simp only [decide_eq_true_eq] at h
  exact h

theorem device_isHigh_iff (cR : Option ℕ) (mR : Option ℚ) (w : ℕ) (r : Bool) :
    (device cR mR w r).isHigh = true ↔
      (¬(r = true ∨ coresDefault cR ≤ 2 ∨ memDefault mR < 2 ∨
          (w < 768 ∧ coresDefault cR ≤ 4)) ∧
        ¬(coresDefault cR ≤ 4 ∨ memDefault mR < 4 ∨ w < 768)) := by
  have h := bool_high_shape r (decide (coresDefault cR ≤ 2))
    (decide (memDefault mR < 2)) (decide (w < 768))
    (decide (coresDefault cR ≤ 4)) (decide (memDefault mR < 4))
  simp only [decide_eq_true_eq] at h
  exact h

theorem specTier_eq_low_iff (c : ℕ) (m : ℚ) (w : ℕ) (r : Bool) :
    specTier c m w r = Tier.low ↔
      (r = true ∨ c ≤ 2 ∨ m < 2 ∨ (w < 768 ∧ c ≤ 4)) := by
  unfold specTier
  split_ifs with h1 h2
  · simp [h1]
  · simp [h1]
  · simp [h1]

theorem specTier_eq_mid_iff (c : ℕ) (m : ℚ) (w : ℕ) (r : Bool) :
    specTier c m w r = Tier.mid ↔
      (¬(r = true ∨ c ≤ 2 ∨ m < 2 ∨ (w < 768 ∧ c ≤ 4)) ∧
        (c ≤ 4 ∨ m < 4 ∨ w < 768)) := by
  unfold specTier
  split_ifs with h1 h2
  · simp [h1]
  · simp [h1, h2]
  · simp [h1, h2]

theorem specTier_eq_high_iff (c : ℕ) (m : ℚ) (w : ℕ) (r : Bool) :
    specTier c m w r = Tier.high ↔
      (¬(r = true ∨ c ≤ 2 ∨ m < 2 ∨ (w < 768 ∧ c ≤ 4)) ∧
        ¬(c ≤ 4 ∨ m < 4 ∨ w < 768)) := by
  unfold specTier
  split_ifs with h1 h2
  · simp [h1]
  · simp [h1, h2]
  · simp [h1, h2]

theorem specTier_defaults_agree (cR : Option ℕ) (mR : Option ℚ) (w : ℕ)
    (r : Bool) :
    specTier (coresDefault cR) (memDefault mR) w r =
      specTier (specCores cR) (specMem mR) w r := by
  have hc : coresDefault cR = specCores cR ∨
      (coresDefault cR = 2 ∧ specCores cR = 0) := by
    cases cR with
    | none => exact Or.inl rfl
    | some c =>
      by_cases hc0 : c = 0
      · subst hc0; exact Or.inr ⟨rfl, rfl⟩
      · left; simp [coresDefault, specCores, hc0]
  have hm : memDefault mR = specMem mR ∨
      (memDefault mR = 1 ∧ specMem mR = 0) := by
    cases mR with
    | none => exact Or.inl rfl
    | some m =>
      by_cases hm0 : m = 0
      · subst hm0; exact Or.inr ⟨rfl, rfl⟩
      · left; simp [memDefault, specMem, hm0]
  rcases hc with hc | ⟨hc1, hc2⟩ <;> rcases hm with hm | ⟨hm1, hm2⟩
  · rw [hc, hm]
  · rw [hc, hm1, hm2]
    rw [(specTier_eq_low_iff _ _ _ _).mpr (Or.inr (Or.inr (Or.inl (by norm_num)))),
        (specTier_eq_low_iff _ _ _ _).mpr (Or.inr (Or.inr (Or.inl (by norm_num))))]
  · rw [hm, hc1, hc2]
    rw [(specTier_eq_low_iff _ _ _ _).mpr (Or.inr (Or.inl (by norm_num))),
        (specTier_eq_low_iff _ _ _ _).mpr (Or.inr (Or.inl (by norm_num)))]
  · rw [hc1, hc2, hm1, hm2]
    rw [(specTier_eq_low_iff _ _ _ _).mpr (Or.inr (Or.inl (by norm_num))),
        (specTier_eq_low_iff _ _ _ _).mpr (Or.inr (Or.inl (by norm_num)))]

/-- Claim C1: the capability detector computes the tier as a function of
(cores, memory, viewport-mobile flag, reduced-motion flag), with cores
defaulting to 2 and memory to 1 when the host cannot report them, by the
first-match-wins rules of the specification: for every input tuple, the
flags `isLow`, `isMid`, `isHigh` computed by `device` agree with
`specTier` applied to the spec-defaulted inputs. -/
theorem device_flags_match_spec_rule (cR : Option ℕ) (mR : Option ℚ)
    (w : ℕ) (r : Bool) :
    ((device cR mR w r).isLow = true ↔
      specTier (specCores cR) (specMem mR) w r = Tier.low) ∧
    ((device cR mR w r).isMid = true ↔
      specTier (specCores cR) (specMem mR) w r = Tier.mid) ∧
    ((device cR mR w r).isHigh = true ↔
      specTier (specCores cR) (specMem mR) w r = Tier.high) := by
  rw [← specTier_defaults_agree, specTier_eq_low_iff, specTier_eq_mid_iff,
    specTier_eq_high_iff, device_isLow_iff, device_isMid_iff,
    device_isHigh_iff]
  exact ⟨Iff.rfl, Iff.rfl, Iff.rfl⟩

/-- Claim C9: for every input tuple, exactly one of the three tier flags
`isLow`, `isMid`, `isHigh` produced by the capability detector is true. -/
theorem tier_flags_exactly_one (cR : Option ℕ) (mR : Option ℚ) (w : ℕ)
    (r : Bool) :
    ((device cR mR w r).isLow = true ∧ (device cR mR w r).isMid = false ∧
      (device cR mR w r).isHigh = false) ∨
    ((device cR mR w r).isLow = false ∧ (device cR mR w r).isMid = true ∧
      (device cR mR w r).isHigh = false) ∨
    ((device cR mR w r).isLow = false ∧ (device cR mR w r).isMid = false ∧
      (device cR mR w r).isHigh = true) := by
  have key : ∀ a b : Bool,
      (a = true ∧ (!a && b) = false ∧ (!a && !(!a && b)) = false) ∨
      (a = false ∧ (!a && b) = true ∧ (!a && !(!a && b)) = false) ∨
      (a = false ∧ (!a && b) = false ∧ (!a && !(!a && b)) = true) := by
    decide
  exact key _ _

-- Helper lemmas for the throttled rAF loop.

theorem fireTimes_chain (interval : ℚ) (last : ℚ) (ticks : List ℚ) :
    List.Chain (fun a b => interval ≤ b - a) last
      (fireTimes interval last ticks) := by
  induction ticks generalizing last with
  | nil => exact List.Chain.nil
  | cons t ts ih =>
    simp only [fireTimes]
    split_ifs with h
    · exact List.Chain.cons h (ih t)
    · exact ih last

theorem finalBaseline_eq_getLastD (interval last : ℚ) (ticks : List ℚ) :
    finalBaseline interval last ticks =
      (fireTimes interval last ticks).getLastD last := by
  induction ticks generalizing last with
  | nil => rfl
  | cons t ts ih =>
    simp only [finalBaseline, fireTimes]
    split_ifs with h
    · rw [List.getLastD_cons, ih t]
    · exact ih last

theorem fireTimes_all_of_chain (interval last : ℚ) (ticks : List ℚ)
    (h : List.Chain (fun a b => interval ≤ b - a) last ticks) :
    fireTimes interval last ticks = ticks := by
  induction ticks generalizing last with
  | nil => rfl
  | cons t ts ih =>
    cases h with
    | cons hd tl =>
      simp only [fireTimes, if_pos hd]
      rw [ih t tl]

/-- Claim C2 (amended): for the rate-limited scheduler, (1) any two
consecutive callback invocations — and the first invocation, measured
from the baseline — are separated by at least `1000/targetFPS`
milliseconds; (2) the final baseline is the timestamp of the last
invocation (or the initial baseline when none fired); (3) if every tick,
including the first one measured from the baseline, is at least one
interval after its predecessor, the callback fires on every native tick;
(4) on each tick the callback is invoked exactly when the time elapsed
since the current baseline is at least the interval, and an invocation
makes its timestamp the new baseline.  The source initialises the
baseline to 0, so (3) needs the first tick to be at least one interval
after 0 — the unamended claim fails there. -/
theorem throttled_raf_behaviour (targetFPS last : ℚ) (ticks : List ℚ) :
    List.Chain (fun a b => throttleInterval targetFPS ≤ b - a) last
      (fireTimes (throttleInterval targetFPS) last ticks)
    ∧ finalBaseline (throttleInterval targetFPS) last ticks =
      (fireTimes (throttleInterval targetFPS) last ticks).getLastD last
    ∧ (List.Chain (fun a b => throttleInterval targetFPS ≤ b - a) last ticks →
        fireTimes (throttleInterval targetFPS) last ticks = ticks)
    ∧ ∀ now ts, fireFlags (throttleInterval targetFPS) last (now :: ts) =
        decide (throttleInterval targetFPS ≤ now - last) ::
          fireFlags (throttleInterval targetFPS)
            (if throttleInterval targetFPS ≤ now - last then now else last)
            ts := by
  refine ⟨fireTimes_chain _ _ _, finalBaseline_eq_getLastD _ _ _,
    fireTimes_all_of_chain _ _ _, ?_⟩
  intro now ts
  simp only [fireFlags]
  split_ifs with h <;> simp [h]

/-- Witness for C2: `targetFPS = 100` (interval 10 ms), baseline 0, ticks
at 10, 25 and 40 ms; the chain hypothesis holds and every tick fires. -/
theorem throttled_raf_behaviour_witness :
    List.Chain (fun a b => throttleInterval 100 ≤ b - a) 0 [10, 25, 40]
    ∧ fireTimes (throttleInterval 100) 0 [10, 25, 40] = [10, 25, 40] := by
  have hchain : List.Chain (fun a b => throttleInterval 100 ≤ b - a) 0
      [10, 25, 40] := by
    refine List.Chain.cons (by norm_num [throttleInterval])
      (List.Chain.cons (by norm_num [throttleInterval])
        (List.Chain.cons (by norm_num [throttleInterval]) List.Chain.nil))
  exact ⟨hchain, (throttled_raf_behaviour 100 0 [10, 25, 40]).2.2.1 hchain⟩

/-- Counterexample for C2 as stated: with `targetFPS = 30`
(interval 100/3 ≈ 33.3 ms) and strictly increasing ticks at 10 and 50 ms
whose spacing 40 ms exceeds the interval, the claim predicts the callback
fires on every native tick, but the code skips the first tick because the
baseline starts at 0 and 10 - 0 < 100/3. -/
theorem throttled_raf_skips_early_first_tick :
    (10 : ℚ) < 50
    ∧ throttleInterval 30 ≤ 50 - 10
    ∧ fireFlags (throttleInterval 30) 0 [10, 50] = [false, true]
    ∧ fireFlags (throttleInterval 30) 0 [10, 50] ≠ [true, true] := by
  refine ⟨by norm_num, by norm_num [throttleInterval], ?_, ?_⟩ <;>
    norm_num [fireFlags, throttleInterval]

-- Helper lemmas for `Math.hypot` and the draw-step phases.

theorem hypot_nonneg (a b : ℝ) : 0 ≤ hypot a b := Real.sqrt_nonneg _

theorem hypot_mul_right (a b c : ℝ) :
    hypot (a * c) (b * c) = hypot a b * |c| := by
  unfold hypot
  rw [show a * c * (a * c) + b * c * (b * c) = (a * a + b * b) * (c * c)
    by ring]
  rw [Real.sqrt_mul (add_nonneg (mul_self_nonneg a) (mul_self_nonneg b)),
    Real.sqrt_mul_self_eq_abs]

theorem hypot_div (a b c : ℝ) : hypot (a / c) (b / c) = hypot a b / |c| := by
  rw [div_eq_mul_inv a c, div_eq_mul_inv b c, hypot_mul_right, abs_inv,
    ← div_eq_mul_inv]

theorem abs_le_hypot (a b : ℝ) : |a| ≤ hypot a b := by
  rw [← Real.sqrt_mul_self_eq_abs]
  exact Real.sqrt_le_sqrt (le_add_of_nonneg_right (mul_self_nonneg b))

theorem clampSpeed_speed (n : Node) :
    hypot (clampSpeed n).vx (clampSpeed n).vy = min (hypot n.vx n.vy) 1.4 := by
  unfold clampSpeed
  split_ifs with h
  · have hpos : (0 : ℝ) < hypot n.vx n.vy := lt_trans (by norm_num) h
    have hne : hypot n.vx n.vy ≠ 0 := ne_of_gt hpos
    show hypot (n.vx * (1.4 / hypot n.vx n.vy))
        (n.vy * (1.4 / hypot n.vx n.vy)) = min (hypot n.vx n.vy) 1.4
    rw [hypot_mul_right, abs_of_pos (div_pos (by norm_num) hpos), min_eq_right h.le,
      mul_comm (hypot n.vx n.vy) (1.4 / hypot n.vx n.vy),
      div_mul_cancel₀ _ hne]
  · rw [min_eq_left (not_lt.mp h)]

theorem reflectBounds_speed (w h : ℝ) (n : Node) :
    hypot (reflectBounds w h n).vx (reflectBounds w h n).vy =
      hypot n.vx n.vy := by
  show hypot (if n.x < 0 ∨ w < n.x then n.vx * (-1) else n.vx)
      (if n.y < 0 ∨ h < n.y then n.vy * (-1) else n.vy) = hypot n.vx n.vy
  split_ifs
  all_goals unfold hypot
  all_goals congr 1
  all_goals ring

/-- Claim C3: after every completed draw step the velocity magnitude is at
most the fixed cap 1.4; more precisely the final speed equals the minimum
of 1.4 and the speed right after the mouse-repulsion impulse (so when an
impulse pushes the magnitude above 1.4 the clamp rescales it to exactly
1.4, and the boundary-reflection and position-clamp phases never change
the magnitude). -/
theorem draw_speed_cap (mouseInf w h mx my : ℝ) (n : Node) :
    hypot (drawStep mouseInf w h mx my n).vx
        (drawStep mouseInf w h mx my n).vy
      = min (hypot (mouseRepulse mouseInf mx my (moveNode n)).vx
          (mouseRepulse mouseInf mx my (moveNode n)).vy) 1.4
    ∧ hypot (drawStep mouseInf w h mx my n).vx
        (drawStep mouseInf w h mx my n).vy ≤ 1.4 := by
  have key : hypot (drawStep mouseInf w h mx my n).vx
      (drawStep mouseInf w h mx my n).vy
      = min (hypot (mouseRepulse mouseInf mx my (moveNode n)).vx
          (mouseRepulse mouseInf mx my (moveNode n)).vy) 1.4 := by
    unfold drawStep
    rw [reflectBounds_speed, clampSpeed_speed]
  exact ⟨key, by rw [key]; exact min_le_right _ _⟩

/-- Claim C8: after every completed draw step the node position lies in
`[0, w] × [0, h]`: the update clamps each coordinate back into bounds
within the same tick. -/
theorem draw_keeps_nodes_in_bounds (mouseInf w h mx my : ℝ) (n : Node)
    (hw : 0 ≤ w) (hh : 0 ≤ h) :
    0 ≤ (drawStep mouseInf w h mx my n).x
    ∧ (drawStep mouseInf w h mx my n).x ≤ w
    ∧ 0 ≤ (drawStep mouseInf w h mx my n).y
    ∧ (drawStep mouseInf w h mx my n).y ≤ h := by
  unfold drawStep reflectBounds
  exact ⟨le_max_left _ _, max_le hw (min_le_left _ _),
    le_max_left _ _, max_le hh (min_le_left _ _)⟩

/-- Witness for C8 at a concrete viewport and node. -/
theorem draw_keeps_nodes_in_bounds_witness :
    (0 : ℝ) ≤ 1024 ∧ (0 : ℝ) ≤ 768
    ∧ (0 ≤ (drawStep 160 1024 768 (-9999) (-9999) ⟨5, 6, 1, 1, 0, 1⟩).x
      ∧ (drawStep 160 1024 768 (-9999) (-9999) ⟨5, 6, 1, 1, 0, 1⟩).x ≤ 1024
      ∧ 0 ≤ (drawStep 160 1024 768 (-9999) (-9999) ⟨5, 6, 1, 1, 0, 1⟩).y
      ∧ (drawStep 160 1024 768 (-9999) (-9999) ⟨5, 6, 1, 1, 0, 1⟩).y ≤ 768) :=
  ⟨by norm_num, by norm_num,
    draw_keeps_nodes_in_bounds 160 1024 768 (-9999) (-9999) ⟨5, 6, 1, 1, 0, 1⟩
      (by norm_num) (by norm_num)⟩

/-- Claim C10: the mouse-repulsion step never divides by zero: the
impulse is guarded by `0 < distance`, so when the pointer coincides with
the position of the node, the node is returned unchanged. -/
theorem no_impulse_when_pointer_on_node (mouseInf : ℝ) (n : Node) :
    mouseRepulse mouseInf n.x n.y n = n := by
  unfold mouseRepulse
  rw [if_neg]
  rintro ⟨-, hpos⟩
  have hzero : nodeDist n.x n.y n = 0 := by
    unfold nodeDist hypot
    simp
  rw [hzero] at hpos
  exact lt_irrefl 0 hpos

/-- Claim C6: during a draw tick a node receives a velocity impulse
exactly when its pointer distance `d` satisfies `0 < d <` influence
radius; the impulse is `((influenceRadius - d) / influenceRadius) * 0.7`
times the unit vector from the pointer toward the node (so its magnitude
is exactly that force and the position is untouched); a node at distance
at least the radius is unchanged; and with the pointer parked at the
off-viewport sentinel `(-9999, -9999)` no node with nonnegative
x-coordinate (in particular no node inside the viewport) is influenced,
for any influence radius at most 9999. -/
theorem mouse_repulsion_rule (mouseInf mx my : ℝ) (n : Node) :
    (0 < nodeDist mx my n → nodeDist mx my n < mouseInf →
      (mouseRepulse mouseInf mx my n).vx
          = n.vx + ((n.x - mx) / nodeDist mx my n) *
            (((mouseInf - nodeDist mx my n) / mouseInf) * 0.7)
      ∧ (mouseRepulse mouseInf mx my n).vy
          = n.vy + ((n.y - my) / nodeDist mx my n) *
            (((mouseInf - nodeDist mx my n) / mouseInf) * 0.7)
      ∧ hypot ((mouseRepulse mouseInf mx my n).vx - n.vx)
            ((mouseRepulse mouseInf mx my n).vy - n.vy)
          = ((mouseInf - nodeDist mx my n) / mouseInf) * 0.7
      ∧ (mouseRepulse mouseInf mx my n).x = n.x
      ∧ (mouseRepulse mouseInf mx my n).y = n.y)
    ∧ (mouseInf ≤ nodeDist mx my n → mouseRepulse mouseInf mx my n = n)
    ∧ (0 ≤ n.x → mouseInf ≤ 9999 →
        mouseRepulse mouseInf (-9999) (-9999) n = n) := by
  refine ⟨?_, ?_, ?_⟩
  · intro h0 hlt
    have hcond : nodeDist mx my n < mouseInf ∧ 0 < nodeDist mx my n :=
      ⟨hlt, h0⟩
    have hforce : (0 : ℝ) ≤ ((mouseInf - nodeDist mx my n) / mouseInf) * 0.7 := by
      have h1 : (0 : ℝ) < mouseInf - nodeDist mx my n := sub_pos.mpr hlt
      have h2 : (0 : ℝ) < mouseInf := h0.trans hlt
      positivity
    unfold mouseRepulse
    rw [if_pos hcond]
    refine ⟨rfl, rfl, ?_, rfl, rfl⟩
    show hypot
        (n.vx + ((n.x - mx) / nodeDist mx my n) *
          (((mouseInf - nodeDist mx my n) / mouseInf) * 0.7) - n.vx)
        (n.vy + ((n.y - my) / nodeDist mx my n) *
          (((mouseInf - nodeDist mx my n) / mouseInf) * 0.7) - n.vy)
      = ((mouseInf - nodeDist mx my n) / mouseInf) * 0.7
    rw [add_sub_cancel_left, add_sub_cancel_left, hypot_mul_right, hypot_div]
    have hd : hypot (n.x - mx) (n.y - my) = nodeDist mx my n := rfl
    rw [hd, abs_of_pos h0, div_self (ne_of_gt h0), one_mul,
      abs_of_nonneg hforce]
  · intro hge
    unfold mouseRepulse
    rw [if_neg]
    rintro ⟨hlt, -⟩
    exact absurd hlt (not_lt.mpr hge)
  · intro hx hinf
    unfold mouseRepulse
    rw [if_neg]
    rintro ⟨hlt, -⟩
    have h2 : |n.x - (-9999)| ≤ nodeDist (-9999) (-9999) n :=
      abs_le_hypot _ _
    have h3 : n.x - (-9999) ≤ |n.x - (-9999)| := le_abs_self _
    linarith

/-- Witness for C6: a node at (3,4) with the pointer at the origin is at
distance 5, inside the radius 160, and keeps its position; a node at
(300,400) is at distance 500, outside the radius, and is unchanged; and
the sentinel pointer leaves the (3,4) node unchanged. -/
theorem mouse_repulsion_rule_witness :
    ((0 : ℝ) < nodeDist 0 0 ⟨3, 4, 0, 0, 0, 1⟩
      ∧ nodeDist 0 0 ⟨3, 4, 0, 0, 0, 1⟩ < 160
      ∧ (mouseRepulse 160 0 0 ⟨3, 4, 0, 0, 0, 1⟩).x
          = (⟨3, 4, 0, 0, 0, 1⟩ : Node).x)
    ∧ ((160 : ℝ) ≤ nodeDist 0 0 ⟨300, 400, 0, 0, 0, 1⟩
      ∧ mouseRepulse 160 0 0 ⟨300, 400, 0, 0, 0, 1⟩
          = (⟨300, 400, 0, 0, 0, 1⟩ : Node))
    ∧ ((0 : ℝ) ≤ (⟨3, 4, 0, 0, 0, 1⟩ : Node).x ∧ (160 : ℝ) ≤ 9999
      ∧ mouseRepulse 160 (-9999) (-9999) ⟨3, 4, 0, 0, 0, 1⟩
          = (⟨3, 4, 0, 0, 0, 1⟩ : Node)) := by
  have h34 : nodeDist 0 0 (⟨3, 4, 0, 0, 0, 1⟩ : Node) = 5 := by
    show hypot ((3 : ℝ) - 0) ((4 : ℝ) - 0) = 5
    unfold hypot
    rw [show ((3 : ℝ) - 0) * ((3 : ℝ) - 0) + ((4 : ℝ) - 0) * ((4 : ℝ) - 0)
        = 5 ^ 2 by norm_num]
    exact Real.sqrt_sq (by norm_num)
  have h500 : nodeDist 0 0 (⟨300, 400, 0, 0, 0, 1⟩ : Node) = 500 := by
    show hypot ((300 : ℝ) - 0) ((400 : ℝ) - 0) = 500
    unfold hypot
    rw [show ((300 : ℝ) - 0) * ((300 : ℝ) - 0) +
        ((400 : ℝ) - 0) * ((400 : ℝ) - 0) = 500 ^ 2 by norm_num]
    exact Real.sqrt_sq (by norm_num)
  refine ⟨⟨?_, ?_, ?_⟩, ⟨?_, ?_⟩, ?_, ?_, ?_⟩
  · rw [h34]; norm_num
  · rw [h34]; norm_num
  · exact ((mouse_repulsion_rule 160 0 0 ⟨3, 4, 0, 0, 0, 1⟩).1
      (by rw [h34]; norm_num) (by rw [h34]; norm_num)).2.2.2.1
  · rw [h500]; norm_num
  · exact (mouse_repulsion_rule 160 0 0 ⟨300, 400, 0, 0, 0, 1⟩).2.1
      (by rw [h500]; norm_num)
  · norm_num
  · norm_num
  · exact (mouse_repulsion_rule 160 (-9999) (-9999) ⟨3, 4, 0, 0, 0, 1⟩).2.2
      (by norm_num) (by norm_num)

/-- Claim C4: the particle-field node count is a deterministic function
of viewport area and tier only: the spawned list has length
`min(floor(width*height / density), cap)` with density 12000 and cap 90
when not Mid (i.e. tier High) and density 28000 and cap 40 on Mid; a
1024×768 viewport on High tier yields 65 nodes; and respawning with a
different random stream yields the same count. -/
theorem spawn_count_deterministic (isMid : Bool) (w h : ℕ)
    (rng rng2 : ℕ → Node) :
    (spawnNodes isMid w h rng).length
        = min (w * h / (if isMid then 28000 else 12000))
            (if isMid then 40 else 90)
    ∧ (spawnNodes isMid w h rng).length = (spawnNodes isMid w h rng2).length
    ∧ spawnCount false 1024 768 = 65 := by
  refine ⟨?_, ?_, by decide⟩ <;>
    simp [spawnNodes, spawnCount]

/-- Claim C5 (amended): the anchor-guarded drivers of
src/js/3d-portfolio.js — matrix rain, the neural particle field, glitch
text — degrade to silent inactivity when their DOM anchor is missing (no
exception, no schedule, no state, no DOM change).  Two effects do not
follow that pattern: the ambient-particle IIFE of the unnamed bundled
file dereferences an unchecked `particleCanvas` lookup, so a missing
canvas throws a TypeError at construction and also prevents the
subsequent effects of that file from initialising; and the Navbar driver
has no anchor guard at all — with the navbar element missing its
constructor still registers the scroll and document-click listeners (no
silent inactivity, no early return), and the first scroll frame then
throws a TypeError from the unchecked dereference. -/
theorem anchor_missing_behaviour (dev : DeviceFlags) (dom : Dom)
    (togglePresent : Bool) (scrollY : ℚ) :
    (dom.matrixCanvas = none →
      matrixRainInit dev dom = ⟨[], false, dom⟩)
    ∧ (dom.neuralCanvas = none →
      neuralInit dev dom = ⟨[], false, dom⟩)
    ∧ (dom.glitchTarget = false →
      glitchInit dev dom = ⟨[], false, dom⟩)
    ∧ (dom.particleCanvas = none →
      particleIifeInit dom = Except.error JSError.typeError)
    ∧ navbarInit false togglePresent = ⟨false, true, togglePresent, true⟩
    ∧ navbarFrame false scrollY = Except.error JSError.typeError := by
  refine ⟨?_, ?_, ?_, ?_, rfl, rfl⟩ <;> intro hmiss
  · unfold matrixRainInit
    rw [hmiss]
    split_ifs <;> rfl
  · unfold neuralInit
    rw [hmiss]
    split_ifs <;> rfl
  · unfold glitchInit
    rw [hmiss]
    split_ifs <;> first | rfl | contradiction
  · unfold particleIifeInit
    rw [hmiss]

/-- Witness for C5 (amended) on a DOM with every modelled anchor absent,
with the toggle present and a concrete scroll position for the Navbar
conjuncts. -/
theorem anchor_missing_behaviour_witness :
    ((⟨none, none, false, none, false, false, false⟩ : Dom).matrixCanvas
        = none
      ∧ matrixRainInit (device (some 8) (some 8) 1024 false)
          ⟨none, none, false, none, false, false, false⟩
        = ⟨[], false, ⟨none, none, false, none, false, false, false⟩⟩)
    ∧ (neuralInit (device (some 8) (some 8) 1024 false)
          ⟨none, none, false, none, false, false, false⟩
        = ⟨[], false, ⟨none, none, false, none, false, false, false⟩⟩)
    ∧ (glitchInit (device (some 8) (some 8) 1024 false)
          ⟨none, none, false, none, false, false, false⟩
        = ⟨[], false, ⟨none, none, false, none, false, false, false⟩⟩)
    ∧ particleIifeInit ⟨none, none, false, none, false, false, false⟩
        = Except.error JSError.typeError
    ∧ navbarInit false true = ⟨false, true, true, true⟩
    ∧ navbarFrame false 100 = Except.error JSError.typeError := by
  have h := anchor_missing_behaviour (device (some 8) (some 8) 1024 false)
    ⟨none, none, false, none, false, false, false⟩ true 100
  exact ⟨⟨rfl, h.1 rfl⟩, h.2.1 rfl, h.2.2.1 rfl, h.2.2.2.1 rfl,
    h.2.2.2.2.1, h.2.2.2.2.2⟩

/-- Counterexample for C5 as stated: on a DOM whose `particleCanvas` is
missing but whose other anchors are present, the ambient-particle IIFE
does not degrade to silent inactivity — it throws a TypeError (from
`canvas.getContext` on a null lookup), so the cursor-glow, typing and
navbar effects of that file never initialise either. -/
theorem particle_iife_throws_on_missing_canvas :
    particleIifeInit
        ⟨some ⟨false⟩, some ⟨false⟩, true, none, true, true, true⟩
      = Except.error JSError.typeError := rfl

/-- Claim C7 (amended): when reduced-motion is requested (which forces
tier Low), constructing any of the motion effect drivers performs no
work: zero schedule handles are registered and no per-frame state is
produced by the matrix rain, neural field or glitch text drivers; the
neural canvas, when present, is explicitly hidden; the matrix canvas and
the rest of the DOM are left untouched (the matrix canvas is never drawn
to, but it is not hidden by the driver). -/
theorem reduced_motion_constructors_inert (cR : Option ℕ) (mR : Option ℚ)
    (w : ℕ) (dom : Dom) :
    (matrixRainInit (device cR mR w true) dom).schedules = []
    ∧ (matrixRainInit (device cR mR w true) dom).hasState = false
    ∧ (matrixRainInit (device cR mR w true) dom).dom = dom
    ∧ (neuralInit (device cR mR w true) dom).schedules = []
    ∧ (neuralInit (device cR mR w true) dom).hasState = false
    ∧ (dom.neuralCanvas = none →
        (neuralInit (device cR mR w true) dom).dom = dom)
    ∧ (∀ c : Canvas, dom.neuralCanvas = some c →
        (neuralInit (device cR mR w true) dom).dom.neuralCanvas
          = some ⟨true⟩)
    ∧ (glitchInit (device cR mR w true) dom).schedules = []
    ∧ (glitchInit (device cR mR w true) dom).hasState = false
    ∧ (glitchInit (device cR mR w true) dom).dom = dom := by
  have hlow : (device cR mR w true).isLow = true := by simp [device]
  have hred : (device cR mR w true).reduced = true := rfl
  cases hnc : dom.neuralCanvas with
  | none =>
    refine ⟨?_, ?_, ?_, ?_, ?_, ?_, ?_, ?_, ?_, ?_⟩ <;>
      simp [matrixRainInit, neuralInit, glitchInit, hlow, hred, hnc]
  | some c =>
    refine ⟨?_, ?_, ?_, ?_, ?_, ?_, ?_, ?_, ?_, ?_⟩ <;>
      simp [matrixRainInit, neuralInit, glitchInit, hlow, hred, hnc]

/-- Witness for C7 (amended): with reduced-motion requested, a present
neural canvas is hidden, an absent one leaves the DOM unchanged, and the
matrix rain driver registers no schedule. -/
theorem reduced_motion_constructors_inert_witness :
    ((⟨none, some ⟨false⟩, false, none, false, false, false⟩ : Dom).neuralCanvas
        = some ⟨false⟩
      ∧ (neuralInit (device (some 8) (some 8) 1024 true)
          ⟨none, some ⟨false⟩, false, none, false, false, false⟩).dom.neuralCanvas
        = some ⟨true⟩)
    ∧ ((⟨none, none, false, none, false, false, false⟩ : Dom).neuralCanvas
        = none
      ∧ (neuralInit (device (some 8) (some 8) 1024 true)
          ⟨none, none, false, none, false, false, false⟩).dom
        = ⟨none, none, false, none, false, false, false⟩)
    ∧ (matrixRainInit (device (some 8) (some 8) 1024 true)
        ⟨none, some ⟨false⟩, false, none, false, false, false⟩).schedules
      = [] := by
  refine ⟨⟨rfl, ?_⟩, ⟨rfl, ?_⟩, ?_⟩
  · exact (reduced_motion_constructors_inert (some 8) (some 8) 1024
      ⟨none, some ⟨false⟩, false, none, false, false, false⟩).2.2.2.2.2.2.1
      ⟨false⟩ rfl
  · exact (reduced_motion_constructors_inert (some 8) (some 8) 1024
      ⟨none, none, false, none, false, false, false⟩).2.2.2.2.2.1 rfl
  · exact (reduced_motion_constructors_inert (some 8) (some 8) 1024
      ⟨none, some ⟨false⟩, false, none, false, false, false⟩).1

/-- Counterexample for C7 as stated: with reduced-motion requested and a
present, visible matrix canvas, constructing the matrix rain driver
leaves that canvas present and not hidden (its display style is
untouched), contradicting "leaves every targeted canvas either absent or
hidden"; the driver does register zero schedules. -/
theorem matrix_canvas_not_hidden_on_reduced :
    (device (some 8) (some 8) 1024 true).reduced = true
    ∧ (matrixRainInit (device (some 8) (some 8) 1024 true)
        ⟨some ⟨false⟩, none, false, none, false, false, false⟩).schedules = []
    ∧ (matrixRainInit (device (some 8) (some 8) 1024 true)
        ⟨some ⟨false⟩, none, false, none, false, false, false⟩).dom.matrixCanvas
      = some ⟨false⟩ :=
  ⟨rfl, rfl, rfl⟩
